import Mathlib

/-!
Shallow embedding of `src/controllers/genreController.js` of the
library-app repository, and proofs about its handlers.

The controller manages a catalog data store holding three collections
(Genre, Book, BookInstance).  Each HTTP handler is embedded as a pure
function from the store (plus the request data it actually reads) to the
updated store and a single response: a rendered view, a redirect, or the
invocation of the express error-handling collaborator `next(err)`.
Asynchronous store calls always run to completion in the source paths we
model, so sequential state passing is a faithful embedding; the parallel
reads and deletes are joined before any response is produced.
-/

namespace LibraryApp

/-- A Genre record as stored in the data store: a stable identifier and a
name.  The Genre model file is not under `src/`; its fields are those the
controller and the spec data model use. -/
structure Genre where
  id : Nat
  name : String
deriving Repr, DecidableEq

/-- A Book record: identifier, title, summary, and the list of Genre ids it
references (the `genre` field is a collection of references). -/
structure Book where
  id : Nat
  title : String
  summary : String
  genre : List Nat
deriving Repr, DecidableEq

/-- A BookInstance record: identifier and the id of the Book it references. -/
structure Bookinstance where
  id : Nat
  book : Nat
deriving Repr, DecidableEq

/-- The external data store: the three shared collections. -/
structure Store where
  genres : List Genre
  books : List Book
  bookinstances : List Bookinstance
deriving Repr, DecidableEq

/-- An error object handed to the error-handling collaborator `next`:
a human-readable message and an optional numeric status (`none` means the
collaborator applies its 500 treatment). -/
structure ErrObj where
  message : String
  status : Option Nat
deriving Repr, DecidableEq

/-- The data passed to `res.render`, one constructor per template/shape the
controller uses. -/
inductive ViewData where
  | genreList (title : String) (genre_list : List Genre)
  | genreDetail (title : String) (genre : Genre) (genre_books : List (String × String))
  | genreFormEmpty (title : String)
  | genreFormData (title : String) (genre : Genre)
  | genreFormErrors (title : String) (genre : Genre) (errors : List String)
  | genreDelete (title : String) (genre : Genre) (genreBooks : List Book)
deriving Repr, DecidableEq

/-- The single response a handler produces: a rendered view, a redirect, or
forwarding an error to the error-handling collaborator. -/
inductive Response where
  | render (view : String) (data : ViewData)
  | redirect (url : String)
  | next (err : ErrObj)
deriving Repr, DecidableEq

/-- HTTP status of a response: rendering replies 200, a redirect 302, and a
forwarded error uses its status field, defaulting to 500. -/
def Response.statusCode : Response → Nat
  | .render _ _ => 200
  | .redirect _ => 302
  | .next e => e.status.getD 500

/-- Modelled from the spec: the Genre model (its file is not under `src/`)
derives a canonical URL for the entity, computed from `id`; the spec
scenarios give it the shape `/genre/<id>`. -/
def Genre.url (g : Genre) : String := "/genre/" ++ toString g.id

/-- Embedding of `Genre.findById(id)`: the stored Genre with the given id,
if any. -/
def Genre_findById (s : Store) (id : Nat) : Option Genre :=
  s.genres.find? (fun g => g.id = id)

/-- Embedding of `Genre.findOne(\x7b name \x7d)`: the first stored Genre
with the given name, if any. -/
def Genre_findOne_byName (s : Store) (n : String) : Option Genre :=
  s.genres.find? (fun g => g.name = n)

/-- Embedding of `Book.find(\x7b genre: id \x7d)`: all Books whose genre
reference list contains the given id. -/
def Book_find_byGenre (s : Store) (id : Nat) : List Book :=
  s.books.filter (fun b => id ∈ b.genre)

/-- Modelled from the spec: the sanitizer of the validation library
(an external collaborator) escapes markup characters, replacing each of
the characters with code points 38, 34, 39, 60, 62, 47, 92, 96
(ampersand, double quote, apostrophe, angle brackets, slash, backslash,
backtick) by its HTML entity. -/
def escapeChar (c : Char) : List Char :=
  if c.toNat = 38 then "&amp;".data
  else if c.toNat = 34 then "&quot;".data
  else if c.toNat = 39 then "&#x27;".data
  else if c.toNat = 60 then "&lt;".data
  else if c.toNat = 62 then "&gt;".data
  else if c.toNat = 47 then "&#x2F;".data
  else if c.toNat = 92 then "&#x5C;".data
  else if c.toNat = 96 then "&#96;".data
  else [c]

/-- Escape a whole string, character by character. -/
def escapeStr (s : String) : String := String.mk ((s.data.map escapeChar).flatten)

/-- Whitespace test for the trim sanitizer (space, tab, newline, vertical
tab, form feed, carriage return). -/
def isWs (c : Char) : Bool :=
  c.toNat = 32 || c.toNat = 9 || c.toNat = 10 || c.toNat = 11 || c.toNat = 12 || c.toNat = 13

/-- Modelled from the spec: the trim sanitizer of the validation library
strips leading and trailing whitespace. -/
def jsTrim (s : String) : String :=
  String.mk (((s.data.dropWhile isWs).reverse.dropWhile isWs).reverse)

/-- The validation message attached to the name field in
`genre_create_post`. -/
def genreNameMsg : String := "Genre name must contain at least 3 characters"

/-- Embedding of `genre_list`.  The handler fetches all genres sorted by
name ascending and renders the list view; a data-store failure (injected
here as `fault`) is forwarded unchanged to `next`. -/
def genre_list (s : Store) (fault : Option ErrObj) : Response :=
  match fault with
  | some e => .next e
  | none =>
      .render "genre_list"
        (.genreList "Genre List" (List.insertionSort (fun a b => a.name ≤ b.name) s.genres))

/-- Embedding of `genre_detail`: fetch the Genre by id and the Books
referencing it (projected to title and summary); a missing Genre becomes a
404 error handed to `next`. -/
def genre_detail (s : Store) (id : Nat) : Response :=
  match Genre_findById s id with
  | none => .next { message := "Genre not found", status := some 404 }
  | some g =>
      .render "genre_detail"
        (.genreDetail "Genre Detail" g ((Book_find_byGenre s id).map (fun b => (b.title, b.summary))))

/-- Embedding of `genre_create_get`: render the empty creation form. -/
def genre_create_get : Response := .render "genre_form" (.genreFormEmpty "Create Genre")

/-- Embedding of `genre_create_post`.  The validation chain trims the raw
name, records an error when the trimmed length is below 3, and escapes;
the handler then re-renders the form on validation failure, redirects to
an existing Genre of the same (sanitized) name, or saves a new Genre
(`freshId` is the identifier the store assigns) and redirects to it. -/
def genre_create_post (s : Store) (rawName : String) (freshId : Nat) : Store × Response :=
  let name := escapeStr (jsTrim rawName)
  let errors : List String :=
    if (jsTrim rawName).length < 3 then [genreNameMsg] else []
  let genre : Genre := { id := freshId, name := name }
  if ¬ errors.isEmpty then
    (s, .render "genre_form" (.genreFormErrors "Create Genre" genre errors))
  else
    match Genre_findOne_byName s name with
    | some genreExists => (s, .redirect genreExists.url)
    | none => ({ s with genres := s.genres ++ [genre] }, .redirect genre.url)

/-- Embedding of `genre_delete_get`: fetch the Genre and its Books; a
missing Genre becomes a 404 error handed to `next`, otherwise the
confirmation view is rendered. -/
def genre_delete_get (s : Store) (id : Nat) : Response :=
  match Genre_findById s id with
  | none => .next { message := "Genre not found", status := some 404 }
  | some g => .render "genre_delete" (.genreDelete "Delete Genre" g (Book_find_byGenre s id))

/-- The delete-POST request as the handler receives it: the route carries a
path id parameter, and the form body carries the `genreid` field the
handler actually reads. -/
structure DeleteRequest where
  params_id : Nat
  body_genreid : Nat
deriving Repr, DecidableEq

/-- Embedding of `genre_delete_post`: collect the ids of the Books
referencing `body.genreid`, then delete the Genre with that id, every Book
referencing it, and every BookInstance referencing one of the collected
Book ids, and redirect to the genre list. -/
def genre_delete_post (s : Store) (req : DeleteRequest) : Store × Response :=
  let genreId := req.body_genreid
  let associatedBooks := s.books.filter (fun b => genreId ∈ b.genre)
  let bookIds := associatedBooks.map (fun b => b.id)
  ({ genres := s.genres.filter (fun g => ¬ g.id = genreId)
     books := s.books.filter (fun b => ¬ genreId ∈ b.genre)
     bookinstances := s.bookinstances.filter (fun i => ¬ i.book ∈ bookIds) },
   .redirect "/catalog/genres")

/-- Embedding of `genre_update_get`: fetch the Genre by id; a missing Genre
becomes a 404 error handed to `next`, otherwise the pre-filled form is
rendered. -/
def genre_update_get (s : Store) (id : Nat) : Response :=
  match Genre_findById s id with
  | none => .next { message := "Genre not found", status := some 404 }
  | some g => .render "genre_form" (.genreFormData "Update Genre" g)

/-- The TypeError raised when the handler reads `.url` on the null result
of `findOneAndUpdate`; it reaches `next` through the catch block with no
status field set. -/
def nullUrlTypeError : ErrObj :=
  { message := "TypeError: cannot read url of null", status := none }

/-- Embedding of `genre_update_post`.  Validation runs upstream, so the
errors list is an input.  On errors the form is re-rendered with the
candidate Genre; otherwise `findOneAndUpdate` replaces the name of the
Genre matching the path id, and the handler redirects to the updated
record, or forwards the TypeError from the null result when no Genre
matches. -/
def genre_update_post (s : Store) (pathId : Nat) (bodyName : String)
    (errors : List String) : Store × Response :=
  let genre : Genre := { id := pathId, name := bodyName }
  if ¬ errors.isEmpty then
    (s, .render "genre_form" (.genreFormErrors "Update Genre" genre errors))
  else
    match Genre_findById s pathId with
    | none => (s, .next nullUrlTypeError)
    | some _ =>
        ({ s with genres := s.genres.map (fun g => if g.id = pathId then genre else g) },
         .redirect genre.url)

instance : IsTotal Genre (fun a b => a.name ≤ b.name) :=
  ⟨fun a b => le_total a.name b.name⟩

instance : IsTrans Genre (fun a b => a.name ≤ b.name) :=
  ⟨fun _ _ _ hab hbc => le_trans hab hbc⟩

/-- C8: for every state of the data store, the list handler renders the
list view with the full set of Genre records ordered by name ascending,
and any data-store error is forwarded unchanged to the error-handling
collaborator. -/
theorem genre_list_spec (s : Store) (e : ErrObj) :
    (∃ l, genre_list s none = Response.render "genre_list" (ViewData.genreList "Genre List" l) ∧
      List.Perm l s.genres ∧ List.Sorted (fun a b : Genre => a.name ≤ b.name) l) ∧
    genre_list s (some e) = Response.next e := by
  refine ⟨⟨List.insertionSort (fun a b => a.name ≤ b.name) s.genres, rfl, ?_, ?_⟩, rfl⟩
  · exact List.perm_insertionSort _ _
  · exact List.sorted_insertionSort _ _

/-- C5: for every genre id that matches no stored Genre, the detail
handler, the delete-GET handler and the update-GET handler each report a
NotFound error with numeric status 404 to the error-handling collaborator
and render no view. -/
theorem genre_notfound_404 (s : Store) (id : Nat)
    (h : Genre_findById s id = none) :
    genre_detail s id = Response.next { message := "Genre not found", status := some 404 } ∧
    genre_delete_get s id = Response.next { message := "Genre not found", status := some 404 } ∧
    genre_update_get s id = Response.next { message := "Genre not found", status := some 404 } := by
  refine ⟨?_, ?_, ?_⟩ <;> simp [genre_detail, genre_delete_get, genre_update_get, h]

theorem genre_notfound_404_witness :
    genre_detail { genres := [], books := [], bookinstances := [] } 0 =
        Response.next { message := "Genre not found", status := some 404 } ∧
    genre_delete_get { genres := [], books := [], bookinstances := [] } 0 =
        Response.next { message := "Genre not found", status := some 404 } ∧
    genre_update_get { genres := [], books := [], bookinstances := [] } 0 =
        Response.next { message := "Genre not found", status := some 404 } :=
  genre_notfound_404 _ 0 rfl

/-- C1: delete-POST on a genre id present in the store removes that Genre,
every Book referencing it, and every BookInstance referencing one of those
Books; every other Genre is left in place, and the response is a redirect
to the genre list. -/
theorem genre_delete_post_cascade (s : Store) (req : DeleteRequest)
    (_hex : ∃ g ∈ s.genres, g.id = req.body_genreid) :
    (∀ g ∈ (genre_delete_post s req).1.genres, g.id ≠ req.body_genreid) ∧
    (∀ g ∈ s.genres, g.id ≠ req.body_genreid → g ∈ (genre_delete_post s req).1.genres) ∧
    (∀ g ∈ (genre_delete_post s req).1.genres, g ∈ s.genres) ∧
    (∀ b ∈ (genre_delete_post s req).1.books, req.body_genreid ∉ b.genre) ∧
    (∀ i ∈ (genre_delete_post s req).1.bookinstances,
       ∀ b ∈ s.books, req.body_genreid ∈ b.genre → i.book ≠ b.id) ∧
    (genre_delete_post s req).2 = Response.redirect "/catalog/genres" := by
  refine ⟨?_, ?_, ?_, ?_, ?_, rfl⟩
  · intro g hg
    simp [genre_delete_post, List.mem_filter] at hg
    exact hg.2
  · intro g hg hne
    simp [genre_delete_post, List.mem_filter]
    exact ⟨hg, hne⟩
  · intro g hg
    simp [genre_delete_post, List.mem_filter] at hg
    exact hg.1
  · intro b hb
    simp [genre_delete_post, List.mem_filter] at hb
    exact hb.2
  · intro i hi b hb hbg
    simp [genre_delete_post, List.mem_filter] at hi
    exact fun he => hi.2 b hb hbg he.symm

theorem genre_delete_post_cascade_witness :
    (genre_delete_post
      { genres := [{ id := 5, name := "Poetry" }],
        books := [{ id := 10, title := "T", summary := "S", genre := [5] }],
        bookinstances := [{ id := 20, book := 10 }] }
      { params_id := 5, body_genreid := 5 }).2 = Response.redirect "/catalog/genres" :=
  (genre_delete_post_cascade
    { genres := [{ id := 5, name := "Poetry" }],
      books := [{ id := 10, title := "T", summary := "S", genre := [5] }],
      bookinstances := [{ id := 20, book := 10 }] }
    { params_id := 5, body_genreid := 5 } (by decide)).2.2.2.2.2

/-- C9: the effect and response of delete-POST depend only on the form
body field genreid: two requests agreeing on it, on the same store, give
identical results whatever their path id parameters. -/
theorem genre_delete_post_pathid_irrelevant (s : Store) (r1 r2 : DeleteRequest)
    (h : r1.body_genreid = r2.body_genreid) :
    genre_delete_post s r1 = genre_delete_post s r2 := by
  simp [genre_delete_post, h]

theorem genre_delete_post_pathid_irrelevant_witness :
    genre_delete_post
      { genres := [{ id := 9, name := "Drama" }], books := [], bookinstances := [] }
      { params_id := 1, body_genreid := 9 } =
    genre_delete_post
      { genres := [{ id := 9, name := "Drama" }], books := [], bookinstances := [] }
      { params_id := 2, body_genreid := 9 } :=
  genre_delete_post_pathid_irrelevant _ _ _ rfl

/-- C6 counterexample: on a store with no Genre of id 5 but a Book with a
dangling reference to genre id 5 (and an instance of that Book),
delete-POST does not leave the store unchanged: the Book and its instance
are deleted, so the claim that zero records of any collection are affected
fails. -/
theorem genre_delete_post_missing_cex :
    (∀ g ∈ (Store.mk []
        [{ id := 10, title := "T", summary := "S", genre := [5] }]
        [{ id := 20, book := 10 }]).genres, g.id ≠ 5) ∧
    (genre_delete_post
      (Store.mk []
        [{ id := 10, title := "T", summary := "S", genre := [5] }]
        [{ id := 20, book := 10 }])
      { params_id := 5, body_genreid := 5 }).1 ≠
      Store.mk []
        [{ id := 10, title := "T", summary := "S", genre := [5] }]
        [{ id := 20, book := 10 }] := by
  decide

/-- C6 amended: for every genre id that matches no stored Genre and is
referenced by no stored Book, delete-POST performs no existence check,
affects zero records of any collection, raises no error, and responds
with a redirect to the genre list view. -/
theorem genre_delete_post_missing (s : Store) (req : DeleteRequest)
    (hg : ∀ g ∈ s.genres, g.id ≠ req.body_genreid)
    (hb : ∀ b ∈ s.books, req.body_genreid ∉ b.genre) :
    genre_delete_post s req = (s, Response.redirect "/catalog/genres") := by
  have h1 : s.genres.filter (fun g => ¬ g.id = req.body_genreid) = s.genres :=
    List.filter_eq_self.mpr (fun g hgm => by simpa using hg g hgm)
  have h2 : s.books.filter (fun b => ¬ req.body_genreid ∈ b.genre) = s.books :=
    List.filter_eq_self.mpr (fun b hbm => by simpa using hb b hbm)
  have h3 : s.books.filter (fun b => req.body_genreid ∈ b.genre) = [] :=
    List.filter_eq_nil_iff.mpr (fun b hbm => by simpa using hb b hbm)
  simp only [genre_delete_post, h1, h2, h3, List.map_nil, List.not_mem_nil,
    not_false_iff, List.filter_eq_self.mpr, decide_True, List.filter_true]

theorem genre_delete_post_missing_witness :
    genre_delete_post
      { genres := [{ id := 1, name := "Drama" }],
        books := [{ id := 10, title := "T", summary := "S", genre := [1] }],
        bookinstances := [{ id := 20, book := 10 }] }
      { params_id := 3, body_genreid := 3 } =
      ({ genres := [{ id := 1, name := "Drama" }],
         books := [{ id := 10, title := "T", summary := "S", genre := [1] }],
         bookinstances := [{ id := 20, book := 10 }] },
       Response.redirect "/catalog/genres") :=
  genre_delete_post_missing _ _ (by decide) (by decide)

/-- C4: for every raw name whose trimmed length is below 3, create-POST
leaves the store unchanged, re-renders the creation form with the
sanitized rejected value and the validation error, and the response
status is 200. -/
theorem genre_create_post_invalid (s : Store) (rawName : String) (freshId : Nat)
    (hlen : (jsTrim rawName).length < 3) :
    genre_create_post s rawName freshId =
      (s, Response.render "genre_form"
        (ViewData.genreFormErrors "Create Genre"
          { id := freshId, name := escapeStr (jsTrim rawName) } [genreNameMsg])) ∧
    (genre_create_post s rawName freshId).2.statusCode = 200 := by
  have h : genre_create_post s rawName freshId =
      (s, Response.render "genre_form"
        (ViewData.genreFormErrors "Create Genre"
          { id := freshId, name := escapeStr (jsTrim rawName) } [genreNameMsg])) := by
    simp [genre_create_post, hlen]
  exact ⟨h, by rw [h]; rfl⟩

theorem genre_create_post_invalid_witness :
    genre_create_post { genres := [], books := [], bookinstances := [] } " Fi " 1 =
      ({ genres := [], books := [], bookinstances := [] },
       Response.render "genre_form"
        (ViewData.genreFormErrors "Create Genre"
          { id := 1, name := escapeStr (jsTrim " Fi ") } [genreNameMsg])) ∧
    (genre_create_post { genres := [], books := [], bookinstances := [] } " Fi " 1).2.statusCode
      = 200 :=
  genre_create_post_invalid { genres := [], books := [], bookinstances := [] } " Fi " 1
    (by decide)

/-- Shared helper: on a valid fresh name, create-POST appends the new
Genre and redirects to it. -/
lemma create_post_fresh_eq (s : Store) (rawName : String) (freshId : Nat)
    (hlen : 3 ≤ (jsTrim rawName).length)
    (hfresh : ∀ g ∈ s.genres, g.name ≠ escapeStr (jsTrim rawName)) :
    genre_create_post s rawName freshId =
      ({ s with genres := s.genres ++ [{ id := freshId, name := escapeStr (jsTrim rawName) }] },
       Response.redirect (Genre.url { id := freshId, name := escapeStr (jsTrim rawName) })) := by
  have hnone : Genre_findOne_byName s (escapeStr (jsTrim rawName)) = none := by
    rw [Genre_findOne_byName, List.find?_eq_none]
    intro g hg
    simpa using hfresh g hg
  simp [genre_create_post, Nat.not_lt.mpr hlen, hnone]

/-- C2: for every raw name whose trimmed length is at least 3 and whose
sanitized form matches no stored Genre name, create-POST appends exactly
one new Genre carrying the trimmed and escaped name and redirects to the
new record's canonical URL; the other collections are untouched. -/
theorem genre_create_post_new (s : Store) (rawName : String) (freshId : Nat)
    (hlen : 3 ≤ (jsTrim rawName).length)
    (hfresh : ∀ g ∈ s.genres, g.name ≠ escapeStr (jsTrim rawName)) :
    genre_create_post s rawName freshId =
      ({ s with genres := s.genres ++ [{ id := freshId, name := escapeStr (jsTrim rawName) }] },
       Response.redirect (Genre.url { id := freshId, name := escapeStr (jsTrim rawName) })) :=
  create_post_fresh_eq s rawName freshId hlen hfresh

theorem genre_create_post_new_witness :
    genre_create_post
      { genres := [{ id := 1, name := "Horror" }], books := [], bookinstances := [] }
      "Fiction" 2 =
      ({ genres := [{ id := 1, name := "Horror" }, { id := 2, name := "Fiction" }],
         books := [], bookinstances := [] },
       Response.redirect "/genre/2") :=
  (genre_create_post_new
    { genres := [{ id := 1, name := "Horror" }], books := [], bookinstances := [] }
    "Fiction" 2 (by decide) (by decide)).trans (by decide)

/-- C3 counterexample: the store holds a Genre named by the four-character
string ampersand-l-t-semicolon, and the submitted raw name is the single
character left angle bracket.  After trimming and escaping, the submitted
name equals the stored Genre name, yet create-POST renders the form (the
trimmed length is 1, so validation fails) instead of redirecting, refuting
the claim as stated. -/
theorem genre_create_post_duplicate_cex :
    (∃ g ∈ (Store.mk [{ id := 1, name := "&lt;" }] [] []).genres,
        g.name = escapeStr (jsTrim "<")) ∧
    ∀ u, (genre_create_post (Store.mk [{ id := 1, name := "&lt;" }] [] []) "<" 2).2 ≠
        Response.redirect u := by
  refine ⟨by decide, ?_⟩
  intro u h
  have h2 : (genre_create_post (Store.mk [{ id := 1, name := "&lt;" }] [] []) "<" 2).2 =
      Response.render "genre_form"
        (ViewData.genreFormErrors "Create Genre" { id := 2, name := "&lt;" } [genreNameMsg]) := by
    decide
  rw [h2] at h
  exact Response.noConfusion h

/-- C3 amended: for every raw name whose trimmed length is at least 3 and
whose trimmed, escaped form equals the name of a stored Genre, create-POST
changes nothing and redirects to that Genre's canonical URL; moreover,
after a successful creation of a fresh valid name, re-submitting the same
raw name leaves the data store unchanged. -/
theorem genre_create_post_duplicate (s : Store) (rawName : String) (g : Genre)
    (fid1 fid2 : Nat)
    (hlen : 3 ≤ (jsTrim rawName).length) :
    (Genre_findOne_byName s (escapeStr (jsTrim rawName)) = some g →
      genre_create_post s rawName fid1 = (s, Response.redirect g.url)) ∧
    ((∀ h ∈ s.genres, h.name ≠ escapeStr (jsTrim rawName)) →
      (genre_create_post (genre_create_post s rawName fid1).1 rawName fid2).1 =
        (genre_create_post s rawName fid1).1) := by
  constructor
  · intro hdup
    simp [genre_create_post, Nat.not_lt.mpr hlen, hdup]
  · intro hfresh
    rw [create_post_fresh_eq s rawName fid1 hlen hfresh]
    have hfind : Genre_findOne_byName
        { s with genres := s.genres ++ [{ id := fid1, name := escapeStr (jsTrim rawName) }] }
        (escapeStr (jsTrim rawName)) =
        some { id := fid1, name := escapeStr (jsTrim rawName) } := by
      rw [Genre_findOne_byName]
      show List.find? _ (s.genres ++ _) = _
      rw [List.find?_append]
      have hnone : s.genres.find? (fun h => h.name = escapeStr (jsTrim rawName)) = none := by
        rw [List.find?_eq_none]
        intro h hh
        simpa using hfresh h hh
      rw [hnone]
      simp
    simp [genre_create_post, Nat.not_lt.mpr hlen, hfind]

theorem genre_create_post_duplicate_witness :
    (Genre_findOne_byName
        { genres := [{ id := 7, name := "Fiction" }], books := [], bookinstances := [] }
        (escapeStr (jsTrim "Fiction")) = some { id := 7, name := "Fiction" } →
      genre_create_post
        { genres := [{ id := 7, name := "Fiction" }], books := [], bookinstances := [] }
        "Fiction" 8 =
        ({ genres := [{ id := 7, name := "Fiction" }], books := [], bookinstances := [] },
         Response.redirect (Genre.url { id := 7, name := "Fiction" }))) ∧
    ((∀ h ∈ (Store.mk [{ id := 7, name := "Fiction" }] [] []).genres,
        h.name ≠ escapeStr (jsTrim "Fiction")) →
      (genre_create_post
        (genre_create_post
          { genres := [{ id := 7, name := "Fiction" }], books := [], bookinstances := [] }
          "Fiction" 8).1 "Fiction" 9).1 =
        (genre_create_post
          { genres := [{ id := 7, name := "Fiction" }], books := [], bookinstances := [] }
          "Fiction" 8).1) :=
  genre_create_post_duplicate
    { genres := [{ id := 7, name := "Fiction" }], books := [], bookinstances := [] }
    "Fiction" { id := 7, name := "Fiction" } 8 9 (by decide)

/-- C7: an update-POST with no validation errors whose path id matches no
stored Genre leaves the store unchanged and forwards the TypeError from
reading the canonical URL of the null update result to the error-handling
collaborator: a generic failure with no status field, treated as 500, not
as a NotFound 404. -/
theorem genre_update_post_vanished (s : Store) (pathId : Nat) (bodyName : String)
    (hnone : Genre_findById s pathId = none) :
    genre_update_post s pathId bodyName [] = (s, Response.next nullUrlTypeError) ∧
    nullUrlTypeError.status = none ∧
    (Response.next nullUrlTypeError).statusCode = 500 := by
  refine ⟨?_, rfl, rfl⟩
  simp [genre_update_post, hnone]

theorem genre_update_post_vanished_witness :
    genre_update_post { genres := [], books := [], bookinstances := [] } 7 "Gothic" [] =
      ({ genres := [], books := [], bookinstances := [] }, Response.next nullUrlTypeError) ∧
    nullUrlTypeError.status = none ∧
    (Response.next nullUrlTypeError).statusCode = 500 :=
  genre_update_post_vanished { genres := [], books := [], bookinstances := [] } 7 "Gothic" rfl

/-- C10: update-POST never touches the Book or BookInstance collections;
every Genre whose id differs from the path id survives unchanged, every
Genre of the result either was already stored or is the candidate record
carrying the path id, and when validation errors are present the whole
store is left unchanged. -/
theorem genre_update_post_frame (s : Store) (pathId : Nat) (bodyName : String)
    (errors : List String) :
    ((genre_update_post s pathId bodyName errors).1.books = s.books) ∧
    ((genre_update_post s pathId bodyName errors).1.bookinstances = s.bookinstances) ∧
    (∀ g ∈ s.genres, g.id ≠ pathId → g ∈ (genre_update_post s pathId bodyName errors).1.genres) ∧
    (∀ g ∈ (genre_update_post s pathId bodyName errors).1.genres,
        g ∈ s.genres ∨ g = { id := pathId, name := bodyName }) ∧
    (∀ g ∈ (genre_update_post s pathId bodyName errors).1.genres, g.id ≠ pathId → g ∈ s.genres) ∧
    (errors ≠ [] → (genre_update_post s pathId bodyName errors).1 = s) := by
  by_cases he : errors.isEmpty
  · rcases hfind : Genre_findById s pathId with _ | g
    · have hres : genre_update_post s pathId bodyName errors =
          (s, Response.next nullUrlTypeError) := by
        simp [genre_update_post, he, hfind]
      rw [hres]
      exact ⟨rfl, rfl, fun g hg _ => hg, fun g hg => Or.inl hg, fun g hg _ => hg,
        fun _ => rfl⟩
    · have hres : genre_update_post s pathId bodyName errors =
          ({ s with
              genres := s.genres.map
                          (fun g2 =>
                            if g2.id = pathId then { id := pathId, name := bodyName } else g2) },
           Response.redirect (Genre.url { id := pathId, name := bodyName })) := by
        simp [genre_update_post, he, hfind]
      rw [hres]
      refine ⟨rfl, rfl, ?_, ?_, ?_, ?_⟩
      · intro g2 hg2 hne
        simp only [List.mem_map]
        exact ⟨g2, hg2, if_neg hne⟩
      · intro g2 hg2
        simp only [List.mem_map] at hg2
        obtain ⟨g3, hg3, hg3e⟩ := hg2
        by_cases hid : g3.id = pathId
        · right
          rw [if_pos hid] at hg3e
          exact hg3e.symm
        · left
          rw [if_neg hid] at hg3e
          exact hg3e ▸ hg3
      · intro g2 hg2 hne
        simp only [List.mem_map] at hg2
        obtain ⟨g3, hg3, hg3e⟩ := hg2
        by_cases hid : g3.id = pathId
        · rw [if_pos hid] at hg3e
          exact absurd (by rw [← hg3e]) hne
        · rw [if_neg hid] at hg3e
          exact hg3e ▸ hg3
      · intro hne
        exact absurd (List.isEmpty_iff.mp he) hne
  · have hres : genre_update_post s pathId bodyName errors =
        (s, Response.render "genre_form"
          (ViewData.genreFormErrors "Update Genre" { id := pathId, name := bodyName } errors)) := by
      simp [genre_update_post, he]
    rw [hres]
    exact ⟨rfl, rfl, fun g hg _ => hg, fun g hg => Or.inl hg, fun g hg _ => hg,
      fun _ => rfl⟩

theorem genre_update_post_frame_witness :
    ((genre_update_post
        { genres := [{ id := 1, name := "Horror" }],
          books := [{ id := 10, title := "T", summary := "S", genre := [1] }],
          bookinstances := [{ id := 20, book := 10 }] } 1 "Fantasy" []).1.books =
      [{ id := 10, title := "T", summary := "S", genre := [1] }]) ∧
    ((genre_update_post
        { genres := [{ id := 1, name := "Horror" }],
          books := [{ id := 10, title := "T", summary := "S", genre := [1] }],
          bookinstances := [{ id := 20, book := 10 }] } 1 "Fantasy" []).1.bookinstances =
      [{ id := 20, book := 10 }]) :=
  ⟨(genre_update_post_frame _ 1 "Fantasy" []).1,
   (genre_update_post_frame _ 1 "Fantasy" []).2.1⟩

end LibraryApp
